import Mathlib

/-!
# Verification of the WalkerEnv environment controller (rg2)

Shallow embedding of `src/rg2/csrc/src/WalkerEnv.cpp` over exact rationals.
Eigen vectors are `List ℚ`; the physics backend's mutable state (generalized
coordinates/velocities, actuation force, contact list) is a `BackendState`
record; the backend's `integrate` is an arbitrary function parameter, since
the integrator lives in the external library. Floating-point literals of the
source (`1e-10`, `4e-5`, `0.3`, `4.0`) are modelled as the corresponding
rationals.
-/

namespace Walker

/-- State owned by the physics backend (raisim): robot generalized
coordinates and velocities, the instantaneous generalized actuation force,
and the current contact list (as local body indices). -/
structure BackendState where
  gc : List ℚ
  gv : List ℚ
  genForce : List ℚ
  contacts : List ℕ
  deriving Repr, DecidableEq

/-- The environment controller state: mirrors the data members of the C++
`WalkerEnv` class, plus the backend state it holds a handle to.
`server` is `some ()` iff a visualization server was attached
(`visualizable_` at construction); `none` models the null `server_` pointer. -/
structure WalkerEnv where
  gcDim : ℕ
  gvDim : ℕ
  nJoints : ℕ
  gcInit : List ℚ
  gvInit : List ℚ
  gcSaved : List ℚ      -- the controller's `gc_` buffer
  gvSaved : List ℚ      -- the controller's `gv_` buffer
  pTarget : List ℚ
  vTarget : List ℚ
  actionMean : List ℚ
  actionStd : List ℚ
  obDouble : List ℚ
  bodyLinearVel : List ℚ
  bodyAngularVel : List ℚ
  obDim : ℕ
  actionDim : ℕ
  control_dt : ℚ
  simulation_dt : ℚ
  terminalRewardCoeff : ℚ
  footIndices : List ℕ
  pGain : List ℚ        -- PD gains held by the backend
  dGain : List ℚ
  server : Option Unit
  backend : BackendState
  deriving Repr, DecidableEq

/-- Eigen's `v.tail(n)`: the last `n` entries of a vector. -/
def tailN (n : ℕ) (v : List ℚ) : List ℚ := v.drop (v.length - n)

/-- The 3×3 rotation matrix produced by `raisim::quatToRotMat` from a unit
quaternion `(w,x,y,z) = gc[3..6]`, stored row-wise. -/
structure Mat3 where
  m00 : ℚ
  m01 : ℚ
  m02 : ℚ
  m10 : ℚ
  m11 : ℚ
  m12 : ℚ
  m20 : ℚ
  m21 : ℚ
  m22 : ℚ
  deriving Repr, DecidableEq

/-- `raisim::quatToRotMat` (external library): the standard rotation matrix
of the quaternion `w + xi + yj + zk`. -/
def quatToRotMat (w x y z : ℚ) : Mat3 :=
  { m00 := 1 - 2*(y*y + z*z), m01 := 2*(x*y - w*z), m02 := 2*(x*z + w*y)
    m10 := 2*(x*y + w*z), m11 := 1 - 2*(x*x + z*z), m12 := 2*(y*z - w*x)
    m20 := 2*(x*z - w*y), m21 := 2*(y*z + w*x), m22 := 1 - 2*(x*x + y*y) }

/-- `rot.e().row(2).transpose()`: the third row of the rotation matrix. -/
def rowTwo (r : Mat3) : List ℚ := [r.m20, r.m21, r.m22]

/-- `rot.e().transpose() * v` for a 3-vector `v` (first three components of
the list; the source always passes an exact 3-segment). -/
def transposeMulVec (r : Mat3) (v : List ℚ) : List ℚ :=
  let v0 := v.getD 0 0
  let v1 := v.getD 1 0
  let v2 := v.getD 2 0
  [ r.m00*v0 + r.m10*v1 + r.m20*v2
  , r.m01*v0 + r.m11*v1 + r.m21*v2
  , r.m02*v0 + r.m12*v1 + r.m22*v2 ]

/-- `WalkerEnv::updateObservation`: pull `(gc, gv)` from the backend,
build the base rotation matrix from the quaternion `gc[3..6]`, rotate the
world-frame base linear/angular velocities into the base frame by the
transpose, and assemble `obDouble_` in the fixed source order. -/
def updateObservation (e : WalkerEnv) : WalkerEnv :=
  let gc := e.backend.gc
  let gv := e.backend.gv
  let rot := quatToRotMat (gc.getD 3 0) (gc.getD 4 0) (gc.getD 5 0) (gc.getD 6 0)
  let linVel := transposeMulVec rot (gv.take 3)
  let angVel := transposeMulVec rot ((gv.drop 3).take 3)
  { e with
    gcSaved := gc
    gvSaved := gv
    bodyLinearVel := linVel
    bodyAngularVel := angVel
    obDouble :=
      [gc.getD 2 0] ++ rowTwo rot ++ tailN e.nJoints gc
        ++ linVel ++ angVel ++ tailN e.nJoints gv }

/-- `WalkerEnv::init`: set the robot state to `(gcInit, gvInit)` and
recompute the observation. -/
def init (e : WalkerEnv) : WalkerEnv :=
  updateObservation { e with backend := { e.backend with gc := e.gcInit, gv := e.gvInit } }

/-- `WalkerEnv::reset`: set the robot state to `(gcInit, gvInit)` and
recompute the observation. -/
def reset (e : WalkerEnv) : WalkerEnv :=
  updateObservation { e with backend := { e.backend with gc := e.gcInit, gv := e.gvInit } }

/-- C++ `int(q)` cast on a real value: truncation toward zero. -/
def cppIntCast (q : ℚ) : ℤ := if 0 ≤ q then ⌊q⌋ else -⌊-q⌋

/-- The epsilon `1e-10` added to the sub-step ratio in `WalkerEnv::step`. -/
def subStepEps : ℚ := 1 / 10000000000

/-- The number of iterations of the integration loop in `WalkerEnv::step`:
`for (int i = 0; i < int(control_dt_ / simulation_dt_ + 1e-10); i++)`.
A non-positive bound runs the loop zero times. -/
def numSubSteps (e : WalkerEnv) : ℕ :=
  (cppIntCast (e.control_dt / e.simulation_dt + subStepEps)).toNat

/-- Squared Euclidean norm (`Eigen::VectorXd::squaredNorm`). -/
def sqNorm (v : List ℚ) : ℚ := (v.map (fun x => x * x)).sum

/-- `WalkerEnv::step`: scale the action into the joint tail of `pTarget_`,
push the PD targets, advance the backend by `numSubSteps` integration
sub-steps, recompute the observation, and return the reward
`-4e-5 * ||generalizedForce||^2 + 0.3 * min(4.0, bodyLinearVel[0])`.
The backend integrator is the external library's; it is the function
parameter `integrate`. -/
def step (integrate : BackendState → BackendState) (e : WalkerEnv)
    (action : List ℚ) : WalkerEnv × ℚ :=
  let pTargetTail :=
    List.zipWith (· + ·) (List.zipWith (· * ·) action e.actionStd) e.actionMean
  let e1 := { e with pTarget := e.pTarget.take (e.pTarget.length - e.nJoints) ++ pTargetTail }
  let e2 := { e1 with backend := integrate^[numSubSteps e1] e1.backend }
  let e3 := updateObservation e2
  (e3, -(4/100000) * sqNorm e3.backend.genForce
        + (3/10) * min 4 (e3.bodyLinearVel.getD 0 0))

/-- The velocity term of the reward as computed in `WalkerEnv::step`:
`0.3 * min(4.0, bodyLinearVel_[0])`. -/
def velocityTerm (vx : ℚ) : ℚ := (3/10) * min 4 vx

/-- The contact-scanning loop of `WalkerEnv::isTerminalState`: return
`(true, coeff)` at the first contact whose local body index is not a foot,
`(false, 0)` when the list is exhausted. -/
def terminalScan (foot : List ℕ) (coeff : ℚ) : List ℕ → Bool × ℚ
  | [] => (false, 0)
  | c :: rest => if c ∈ foot then terminalScan foot coeff rest else (true, coeff)

/-- `WalkerEnv::isTerminalState`: scan the backend's contact list against
the registered foot body set. A pure query: it returns no new environment
state because the source mutates none. -/
def isTerminalState (e : WalkerEnv) : Bool × ℚ :=
  terminalScan e.footIndices e.terminalRewardCoeff e.backend.contacts

/-- `WalkerEnv::setInitConstants`: the six `assert`s on argument lengths
are modelled as a guard; a dimension mismatch is the fatal path `none`
and no field of the environment is written. -/
def setInitConstants (e : WalkerEnv) (gcInit gvInit actionMean actionStd pGain dGain : List ℚ) :
    Option WalkerEnv :=
  if gcInit.length = e.gcDim ∧ gvInit.length = e.gvDim
      ∧ actionMean.length = e.actionDim ∧ actionStd.length = e.actionDim
      ∧ pGain.length = e.gvDim ∧ dGain.length = e.gvDim then
    some { e with gcInit := gcInit, gvInit := gvInit,
                  actionMean := actionMean, actionStd := actionStd,
                  pGain := pGain, dGain := dGain }
  else
    none

/-- `WalkerEnv::setControlTimeStep`. -/
def setControlTimeStep (e : WalkerEnv) (dt : ℚ) : WalkerEnv :=
  { e with control_dt := dt }

/-- `WalkerEnv::setSimulationTimeStep` (also pushes the step to the backend
world; the world's step size is not part of the observable state here). -/
def setSimulationTimeStep (e : WalkerEnv) (dt : ℚ) : WalkerEnv :=
  { e with simulation_dt := dt }

/-- `WalkerEnv::turnOffVisualization`: `server_->hibernate()` with no null
check; `none` models the null-pointer dereference when no server was ever
attached. -/
def turnOffVisualization (e : WalkerEnv) : Option WalkerEnv :=
  e.server.map (fun _ => e)

/-- `WalkerEnv::turnOnVisualization`: `server_->wakeup()` with no null
check. -/
def turnOnVisualization (e : WalkerEnv) : Option WalkerEnv :=
  e.server.map (fun _ => e)

/-- `WalkerEnv::startRecordingVideo`: `server_->startRecordingVideo(name)`
with no null check. -/
def startRecordingVideo (e : WalkerEnv) (_videoName : String) : Option WalkerEnv :=
  e.server.map (fun _ => e)

/-- `WalkerEnv::stopRecordingVideo`: `server_->stopRecordingVideo()` with
no null check. -/
def stopRecordingVideo (e : WalkerEnv) : Option WalkerEnv :=
  e.server.map (fun _ => e)

/-- The fixed standing pose written by `initializeContainers`
(`gcInit_ << 0, 0, 0.50, 1.0, 0, 0, 0, ...` — 19 entries). -/
def standingPose : List ℚ :=
  [0, 0, 1/2, 1, 0, 0, 0,
   3/100, 2/5, -4/5, -3/100, 2/5, -4/5, 3/100, -2/5, 4/5, -3/100, -2/5, 4/5]

/-- The environment produced by the `WalkerEnv` constructor for the robot
the source hard-codes (`gcDim = 19`, `gvDim = 18`, `nJoints = 12`):
`createWorldAndRobot`, `initializeContainers`, `setPdGains`,
`initializeObservationSpace`, and (iff `visualizable`) the server attach.
The foot body indices and the backend's initial state come from the loaded
robot, so they are parameters.
The time-step defaults and the terminal-reward coefficient are declared
in the class header, which is not among the sources, so they are
parameters as well. -/
def construct (visualizable : Bool) (footIdx : List ℕ) (termCoeff : ℚ)
    (cdt0 sdt0 : ℚ) (b0 : BackendState) : WalkerEnv :=
  { gcDim := 19
    gvDim := 18
    nJoints := 12
    gcInit := standingPose
    gvInit := List.replicate 18 0
    gcSaved := List.replicate 19 0
    gvSaved := List.replicate 18 0
    pTarget := List.replicate 19 0
    vTarget := List.replicate 18 0
    actionMean := tailN 12 standingPose
    actionStd := List.replicate 12 (3/10)
    obDouble := List.replicate (1 + 3 + 3 + 3 + 12 * 2) 0
    bodyLinearVel := [0, 0, 0]
    bodyAngularVel := [0, 0, 0]
    obDim := 1 + 3 + 3 + 3 + 12 * 2
    actionDim := 12
    control_dt := cdt0
    simulation_dt := sdt0
    terminalRewardCoeff := termCoeff
    footIndices := footIdx
    pGain := List.replicate 6 0 ++ List.replicate 12 50
    dGain := List.replicate 6 0 ++ List.replicate 12 (1/5)
    server := if visualizable then some () else none
    backend := b0 }

/-- Dimensional sanity of an environment: the invariants established by the
constructor (`createWorldAndRobot` + `initializeContainers` +
`initializeObservationSpace`) and preserved by every operation: a floating
base (7 generalized coordinates, 6 DOF) plus `nJoints` actuated joints,
containers of matching lengths, base rows of `pTarget_` zero, `vTarget_`
all-zero, and backend state of the declared dimensions. -/
def WellFormed (e : WalkerEnv) : Prop :=
  e.gcDim = e.nJoints + 7 ∧ e.gvDim = e.nJoints + 6 ∧ e.actionDim = e.nJoints
  ∧ e.obDim = 1 + 3 + 3 + 3 + 2 * e.nJoints
  ∧ e.pTarget.length = e.gcDim
  ∧ e.pTarget.take (e.gcDim - e.nJoints) = List.replicate (e.gcDim - e.nJoints) 0
  ∧ e.vTarget = List.replicate e.gvDim 0
  ∧ e.actionMean.length = e.nJoints ∧ e.actionStd.length = e.nJoints
  ∧ e.gcInit.length = e.gcDim ∧ e.gvInit.length = e.gvDim
  ∧ e.backend.gc.length = e.gcDim ∧ e.backend.gv.length = e.gvDim

instance (e : WalkerEnv) : Decidable (WellFormed e) := by
  unfold WellFormed; infer_instance

/-- The observation vector as the specification describes it: base height,
third row of the base rotation matrix, joint angles, base linear then
angular velocity rotated into the base frame by the transpose of that
matrix, joint velocities. -/
def observationSpec (nJ : ℕ) (gc gv : List ℚ) : List ℚ :=
  let rot := quatToRotMat (gc.getD 3 0) (gc.getD 4 0) (gc.getD 5 0) (gc.getD 6 0)
  [gc.getD 2 0] ++ rowTwo rot ++ tailN nJ gc
    ++ transposeMulVec rot (gv.take 3)
    ++ transposeMulVec rot ((gv.drop 3).take 3)
    ++ tailN nJ gv

/-- A concrete backend state at the standing pose with no contacts,
used to instantiate environments on concrete inputs. -/
def backend0 : BackendState :=
  { gc := standingPose
    gv := List.replicate 18 0
    genForce := List.replicate 18 0
    contacts := [] }

/-- A concrete headless environment (constructed with `visualizable =
false`, foot bodies `[3, 6, 9, 12]`, terminal penalty `-10`, the usual
`control_dt = 0.02`, `simulation_dt = 0.005`). -/
def env0 : WalkerEnv := construct false [3, 6, 9, 12] (-10) (1/50) (1/200) backend0

lemma tailN_append_right (a b : List ℚ) : tailN b.length (a ++ b) = b := by
  unfold tailN
  rw [List.length_append, Nat.add_sub_cancel, List.drop_left]

lemma cppIntCast_toNat_eq_zero {q : ℚ} (h : q < 1) : (cppIntCast q).toNat = 0 := by
  unfold cppIntCast
  split
  · have hfl : ⌊q⌋ < 1 := Int.floor_lt.mpr (by exact_mod_cast h)
    omega
  · have hq : ¬ 0 ≤ q := by assumption
    have hfl : (0 : ℤ) ≤ ⌊-q⌋ := Int.floor_nonneg.mpr (by linarith [not_le.mp hq])
    omega

lemma cppIntCast_of_nonneg {q : ℚ} (h : 0 ≤ q) : cppIntCast q = ⌊q⌋ := if_pos h

lemma step_pTarget (integrate : BackendState → BackendState) (e : WalkerEnv)
    (action : List ℚ) :
    (step integrate e action).1.pTarget
      = e.pTarget.take (e.pTarget.length - e.nJoints)
        ++ List.zipWith (· + ·) (List.zipWith (· * ·) action e.actionStd) e.actionMean := by
  simp [step, updateObservation]

lemma step_vTarget (integrate : BackendState → BackendState) (e : WalkerEnv)
    (action : List ℚ) :
    (step integrate e action).1.vTarget = e.vTarget := by
  simp [step, updateObservation]

lemma terminalScan_of_exists_nonfoot (foot : List ℕ) (coeff : ℚ) (cs : List ℕ)
    (h : ∃ c ∈ cs, c ∉ foot) : terminalScan foot coeff cs = (true, coeff) := by
  induction cs with
  | nil => simp at h
  | cons c rest ih =>
    by_cases hc : c ∈ foot
    · rw [terminalScan, if_pos hc]
      apply ih
      rcases h with ⟨d, hd, hdf⟩
      rcases List.mem_cons.mp hd with rfl | hdr
      · exact absurd hc hdf
      · exact ⟨d, hdr, hdf⟩
    · rw [terminalScan, if_neg hc]

lemma terminalScan_of_all_foot (foot : List ℕ) (coeff : ℚ) (cs : List ℕ)
    (h : ∀ c ∈ cs, c ∈ foot) : terminalScan foot coeff cs = (false, 0) := by
  induction cs with
  | nil => rfl
  | cons c rest ih =>
    rw [terminalScan, if_pos (h c (List.mem_cons_self c rest))]
    exact ih fun d hd => h d (List.mem_cons_of_mem c hd)

/-- C1: after `step(action)` with an action of length `actionDim`, the
joint tail of `pTarget_` is `action ⊙ actionStd + actionMean`, the first
`gcDim − nJoints` (base) entries of `pTarget_` are exactly zero, and
`vTarget_` is the all-zero vector of length `gvDim`. -/
theorem step_sets_pd_targets (integrate : BackendState → BackendState)
    (e : WalkerEnv) (action : List ℚ)
    (hwf : WellFormed e) (ha : action.length = e.actionDim) :
    tailN e.nJoints (step integrate e action).1.pTarget
        = List.zipWith (· + ·) (List.zipWith (· * ·) action e.actionStd) e.actionMean
      ∧ (step integrate e action).1.pTarget.take (e.gcDim - e.nJoints)
        = List.replicate (e.gcDim - e.nJoints) 0
      ∧ (step integrate e action).1.vTarget = List.replicate e.gvDim 0 := by
  obtain ⟨hgc, hgv, had, hob, hpl, hpz, hvz, hml, hsl, -, -, -, -⟩ := hwf
  have hlen :
      (List.zipWith (· + ·) (List.zipWith (· * ·) action e.actionStd) e.actionMean).length
        = e.nJoints := by
    simp [List.length_zipWith, ha, had, hsl, hml]
  refine ⟨?_, ?_, ?_⟩
  · rw [step_pTarget, ← hlen, tailN_append_right]
  · rw [step_pTarget]
    have hplen : (e.pTarget.take (e.pTarget.length - e.nJoints)).length
        = e.gcDim - e.nJoints := by
      simp only [List.length_take, hpl]
      omega
    rw [List.take_left' hplen, hpl]
    exact hpz
  · rw [step_vTarget]
    exact hvz

/-- Witness for C1 at the concrete headless environment and the action
`(0.1, …, 0.1)`. -/
theorem step_sets_pd_targets_witness :
    WellFormed env0 ∧ (List.replicate 12 (1/10) : List ℚ).length = env0.actionDim
      ∧ (tailN env0.nJoints (step id env0 (List.replicate 12 (1/10))).1.pTarget
          = List.zipWith (· + ·)
              (List.zipWith (· * ·) (List.replicate 12 (1/10)) env0.actionStd) env0.actionMean
        ∧ (step id env0 (List.replicate 12 (1/10))).1.pTarget.take (env0.gcDim - env0.nJoints)
          = List.replicate (env0.gcDim - env0.nJoints) 0
        ∧ (step id env0 (List.replicate 12 (1/10))).1.vTarget = List.replicate env0.gvDim 0) :=
  ⟨by decide, by decide, step_sets_pd_targets id env0 _ (by decide) (by decide)⟩

/-- C3: `step` returns
`-4e-5 * ||generalizedForce||² + 0.3 * min(4.0, bodyLinearVel.x)`; the
velocity term never exceeds `0.3 * 4.0 = 1.2`, and forward velocity 10
contributes exactly as much as forward velocity 4. -/
theorem step_reward_formula (integrate : BackendState → BackendState)
    (e : WalkerEnv) (action : List ℚ) (v : ℚ) :
    (step integrate e action).2
        = -(4/100000) * sqNorm (step integrate e action).1.backend.genForce
          + velocityTerm ((step integrate e action).1.bodyLinearVel.getD 0 0)
      ∧ velocityTerm v ≤ (3/10) * 4
      ∧ velocityTerm 10 = velocityTerm 4 := by
  refine ⟨rfl, ?_, by norm_num [velocityTerm]⟩
  unfold velocityTerm
  have hmin : min (4 : ℚ) v ≤ 4 := min_le_left _ _
  have h310 : (0 : ℚ) ≤ 3/10 := by norm_num
  exact mul_le_mul_of_nonneg_left hmin h310

/-- C4: `isTerminalState` reports `(true, terminalRewardCoeff)` exactly
when some contact's body index lies outside the foot set, and `(false, 0)`
when every contact body is a foot (in particular with no contacts at all).
The model is a pure query: the source writes no member of the class. -/
theorem isTerminalState_contact_classification (e : WalkerEnv) :
    ((∃ c ∈ e.backend.contacts, c ∉ e.footIndices)
        → isTerminalState e = (true, e.terminalRewardCoeff))
      ∧ ((∀ c ∈ e.backend.contacts, c ∈ e.footIndices)
        → isTerminalState e = (false, 0)) :=
  ⟨fun h => terminalScan_of_exists_nonfoot _ _ _ h,
   fun h => terminalScan_of_all_foot _ _ _ h⟩

/-- A headless environment whose backend reports one contact on body `0`,
which is not a foot. -/
def envContactBad : WalkerEnv :=
  construct false [3, 6, 9, 12] (-10) (1/50) (1/200)
    { backend0 with contacts := [0] }

/-- A headless environment whose backend reports contacts only on the foot
bodies `3` and `12`. -/
def envContactFeet : WalkerEnv :=
  construct false [3, 6, 9, 12] (-10) (1/50) (1/200)
    { backend0 with contacts := [3, 12] }

/-- Witness for C4: a non-foot contact terminates with the penalty, foot
contacts do not terminate. -/
theorem isTerminalState_contact_classification_witness :
    isTerminalState envContactBad = (true, -10)
      ∧ isTerminalState envContactFeet = (false, 0) :=
  ⟨(isTerminalState_contact_classification envContactBad).1 (by decide),
   (isTerminalState_contact_classification envContactFeet).2 (by decide)⟩

/-- C8: `reset` is idempotent — a second `reset` with no `step` in between
reproduces the very same environment, hence a bit-identical observation —
and `init` and `reset` are the same function on environment state. -/
theorem reset_idempotent_and_init_eq_reset (e : WalkerEnv) :
    reset (reset e) = reset e ∧ init e = reset e
      ∧ (reset (reset e)).obDouble = (reset e).obDouble :=
  ⟨rfl, rfl, rfl⟩

lemma observationSpec_length (nJ : ℕ) (gc gv : List ℚ)
    (hgc : gc.length = nJ + 7) (hgv : gv.length = nJ + 6) :
    (observationSpec nJ gc gv).length = 1 + 3 + 3 + 3 + 2 * nJ := by
  simp only [observationSpec, rowTwo, transposeMulVec, tailN,
    List.length_append, List.length_cons, List.length_nil, List.length_drop,
    hgc, hgv]
  omega

lemma iterate_preserves_lengths (integrate : BackendState → BackendState)
    (hpres : ∀ b : BackendState,
      (integrate b).gc.length = b.gc.length ∧ (integrate b).gv.length = b.gv.length)
    (n : ℕ) (b : BackendState) :
    (integrate^[n] b).gc.length = b.gc.length
      ∧ (integrate^[n] b).gv.length = b.gv.length := by
  induction n with
  | zero => exact ⟨rfl, rfl⟩
  | succ k ih =>
    rw [Function.iterate_succ_apply']
    exact ⟨(hpres _).1.trans ih.1, (hpres _).2.trans ih.2⟩

/-- C2: every `updateObservation` (hence every `reset` and every `step`,
assuming the external integrator preserves the state dimensions) leaves
`obDouble_` equal to the fixed-order assembly — base height, third rotation
row, joint angles, base-frame linear then angular velocity, joint
velocities — of length `obDim = 1 + 3 + 3 + 3 + 2*nJoints`. -/
theorem updateObservation_assembles_observation (e : WalkerEnv)
    (integrate : BackendState → BackendState) (action : List ℚ)
    (hwf : WellFormed e)
    (hpres : ∀ b : BackendState,
      (integrate b).gc.length = b.gc.length ∧ (integrate b).gv.length = b.gv.length) :
    (updateObservation e).obDouble = observationSpec e.nJoints e.backend.gc e.backend.gv
      ∧ (updateObservation e).obDouble.length = e.obDim
      ∧ (reset e).obDouble = observationSpec e.nJoints e.gcInit e.gvInit
      ∧ (reset e).obDouble.length = e.obDim
      ∧ (step integrate e action).1.obDouble.length = e.obDim
      ∧ e.obDim = 1 + 3 + 3 + 3 + 2 * e.nJoints := by
  obtain ⟨hgc, hgv, had, hob, hpl, hpz, hvz, hml, hsl, hgi, hvi, hbc, hbv⟩ := hwf
  refine ⟨rfl, ?_, rfl, ?_, ?_, hob⟩
  · have : (updateObservation e).obDouble
        = observationSpec e.nJoints e.backend.gc e.backend.gv := rfl
    rw [this, hob]
    exact observationSpec_length _ _ _ (by omega) (by omega)
  · have : (reset e).obDouble = observationSpec e.nJoints e.gcInit e.gvInit := rfl
    rw [this, hob]
    exact observationSpec_length _ _ _ (by omega) (by omega)
  · have hs : (step integrate e action).1.obDouble
        = observationSpec e.nJoints (integrate^[numSubSteps e] e.backend).gc
            (integrate^[numSubSteps e] e.backend).gv := rfl
    have hit := iterate_preserves_lengths integrate hpres (numSubSteps e) e.backend
    rw [hs, hob]
    exact observationSpec_length _ _ _ (by omega) (by omega)

/-- Witness for C2 at the concrete headless environment with the identity
integrator. -/
theorem updateObservation_assembles_observation_witness :
    WellFormed env0
      ∧ ((updateObservation env0).obDouble
          = observationSpec env0.nJoints env0.backend.gc env0.backend.gv
        ∧ (updateObservation env0).obDouble.length = env0.obDim
        ∧ (reset env0).obDouble = observationSpec env0.nJoints env0.gcInit env0.gvInit
        ∧ (reset env0).obDouble.length = env0.obDim
        ∧ (step id env0 (List.replicate 12 0)).1.obDouble.length = env0.obDim
        ∧ env0.obDim = 1 + 3 + 3 + 3 + 2 * env0.nJoints) :=
  ⟨by decide,
   updateObservation_assembles_observation env0 id (List.replicate 12 0) (by decide)
     (fun _ => ⟨rfl, rfl⟩)⟩

/-- C5: with a positive integrator step and a nonnegative control period —
any timing configuration in the spec's sense — the integration loop runs
exactly `⌊control_dt / simulation_dt + 1e-10⌋` times; in particular the
pair `(0.02, 0.005)` gives exactly 4 sub-steps. -/
theorem step_substep_count (e : WalkerEnv)
    (hs : 0 < e.simulation_dt) (hc : 0 ≤ e.control_dt) :
    (numSubSteps e : ℤ) = ⌊e.control_dt / e.simulation_dt + subStepEps⌋
      ∧ numSubSteps (setControlTimeStep (setSimulationTimeStep e (5/1000)) (2/100)) = 4 := by
  constructor
  · have hq : 0 ≤ e.control_dt / e.simulation_dt + subStepEps := by
      have h1 : 0 ≤ e.control_dt / e.simulation_dt := div_nonneg hc hs.le
      have h2 : (0 : ℚ) ≤ subStepEps := by norm_num [subStepEps]
      linarith
    rw [numSubSteps, cppIntCast_of_nonneg hq]
    exact Int.toNat_of_nonneg (Int.floor_nonneg.mpr hq)
  · show (cppIntCast ((2/100 : ℚ)/(5/1000) + subStepEps)).toNat = 4
    rw [cppIntCast_of_nonneg (by norm_num [subStepEps])]
    have h4 : ⌊(2/100 : ℚ)/(5/1000) + subStepEps⌋ = 4 := by
      rw [Int.floor_eq_iff]
      constructor <;> norm_num [subStepEps]
    rw [h4]
    rfl

/-- Witness for C5 at the concrete environment (`control_dt = 0.02`,
`simulation_dt = 0.005`). -/
theorem step_substep_count_witness :
    (0 : ℚ) < env0.simulation_dt ∧ (0 : ℚ) ≤ env0.control_dt
      ∧ ((numSubSteps env0 : ℤ) = ⌊env0.control_dt / env0.simulation_dt + subStepEps⌋
        ∧ numSubSteps (setControlTimeStep (setSimulationTimeStep env0 (5/1000)) (2/100)) = 4) :=
  ⟨by show (0 : ℚ) < 1/200; norm_num, by show (0 : ℚ) ≤ 1/50; norm_num,
   step_substep_count env0 (by show (0 : ℚ) < 1/200; norm_num)
     (by show (0 : ℚ) ≤ 1/50; norm_num)⟩

/-- The environment retimed to `control_dt = 0.029`,
`simulation_dt = 0.01`: the ratio is `2.9`. -/
def env6 : WalkerEnv := setControlTimeStep (setSimulationTimeStep env0 (1/100)) (29/1000)

/-- Counterexample to C6: at ratio `2.9` (with
`controlTimeStep >= simulationTimeStep`) the code truncates
`2.9 + 1e-10` to 2 sub-steps while rounding to the nearest integer gives
3. -/
theorem numSubSteps_ne_round_counterexample :
    env6.simulation_dt ≤ env6.control_dt
      ∧ round (env6.control_dt / env6.simulation_dt) = 3
      ∧ numSubSteps env6 = 2 := by
  refine ⟨by show (1/100 : ℚ) ≤ 29/1000; norm_num, ?_, ?_⟩
  · show round ((29/1000 : ℚ) / (1/100)) = 3
    rw [round_eq]
    norm_num
  · show (cppIntCast ((29/1000 : ℚ)/(1/100) + subStepEps)).toNat = 2
    rw [cppIntCast_of_nonneg (by norm_num [subStepEps])]
    have h2 : ⌊(29/1000 : ℚ)/(1/100) + subStepEps⌋ = 2 := by
      rw [Int.floor_eq_iff]
      constructor <;> norm_num [subStepEps]
    rw [h2]
    rfl

/-- C6 as amended: when the ratio is an exact integer —
`controlTimeStep = n * simulationTimeStep` — the sub-step count agrees
with `round(controlTimeStep / simulationTimeStep) = n`; in general the
code computes `⌊ratio + 1e-10⌋`, which can be one less than `round`. -/
theorem numSubSteps_round_exact_ratio (e : WalkerEnv) (n : ℕ)
    (hs : 0 < e.simulation_dt) (hc : e.control_dt = n * e.simulation_dt) :
    numSubSteps e = n ∧ round (e.control_dt / e.simulation_dt) = n := by
  have hdiv : e.control_dt / e.simulation_dt = n := by
    rw [hc, mul_div_assoc, div_self hs.ne', mul_one]
  constructor
  · have hq : (0 : ℚ) ≤ (n : ℚ) + subStepEps := by
      have h1 : (0 : ℚ) ≤ (n : ℚ) := Nat.cast_nonneg n
      have h2 : (0 : ℚ) < subStepEps := by norm_num [subStepEps]
      linarith
    rw [numSubSteps, hdiv, cppIntCast_of_nonneg hq]
    have hfl : ⌊(n : ℚ) + subStepEps⌋ = (n : ℤ) := by
      rw [Int.floor_eq_iff]
      constructor
      · push_cast
        norm_num [subStepEps]
      · push_cast
        norm_num [subStepEps]
    rw [hfl]
    exact Int.toNat_natCast n
  · rw [hdiv]
    exact round_natCast n

/-- Witness for the amended C6 at the concrete environment, whose ratio is
the exact integer 4. -/
theorem numSubSteps_round_exact_ratio_witness :
    (0 : ℚ) < env0.simulation_dt ∧ env0.control_dt = (4 : ℕ) * env0.simulation_dt
      ∧ (numSubSteps env0 = 4 ∧ round (env0.control_dt / env0.simulation_dt) = 4) :=
  ⟨by show (0 : ℚ) < 1/200; norm_num,
   by show (1/50 : ℚ) = (4 : ℕ) * (1/200); norm_num,
   numSubSteps_round_exact_ratio env0 4 (by show (0 : ℚ) < 1/200; norm_num)
     (by show (1/50 : ℚ) = (4 : ℕ) * (1/200); norm_num)⟩

/-- C7: any length mismatch among the six arguments takes the fatal
`assert` path: the call yields no successor state, so none of `gcInit_`,
`gvInit_`, `actionMean_`, `actionStd_` or the backend PD gains is written,
and nothing is truncated or padded. -/
theorem setInitConstants_dimension_mismatch (e : WalkerEnv)
    (gcI gvI aM aS pG dG : List ℚ)
    (h : gcI.length ≠ e.gcDim ∨ gvI.length ≠ e.gvDim ∨ aM.length ≠ e.actionDim
        ∨ aS.length ≠ e.actionDim ∨ pG.length ≠ e.gvDim ∨ dG.length ≠ e.gvDim) :
    setInitConstants e gcI gvI aM aS pG dG = none := by
  unfold setInitConstants
  split
  · next hcond => exact absurd hcond (by tauto)
  · rfl

/-- Witness for C7: a 3-entry `gcInit` against `gcDim = 19` is rejected. -/
theorem setInitConstants_dimension_mismatch_witness :
    (([1, 2, 3] : List ℚ).length ≠ env0.gcDim)
      ∧ setInitConstants env0 [1, 2, 3] (List.replicate 18 0) (List.replicate 12 0)
          (List.replicate 12 0) (List.replicate 18 0) (List.replicate 18 0) = none :=
  ⟨by decide,
   setInitConstants_dimension_mismatch env0 _ _ _ _ _ _ (Or.inl (by decide))⟩

/-- C10: when `control_dt / simulation_dt + 1e-10 < 1` the loop bound is
non-positive, so `step` integrates zero times: the backend state is
untouched, yet the PD targets are written, the observation is recomputed
from the unadvanced state, and a reward is returned — no error path. -/
theorem step_zero_substeps (integrate : BackendState → BackendState)
    (e : WalkerEnv) (action : List ℚ)
    (h : e.control_dt / e.simulation_dt + subStepEps < 1) :
    numSubSteps e = 0
      ∧ (step integrate e action).1.backend = e.backend
      ∧ (step integrate e action).1.obDouble
        = observationSpec e.nJoints e.backend.gc e.backend.gv
      ∧ (step integrate e action).1.pTarget
        = e.pTarget.take (e.pTarget.length - e.nJoints)
          ++ List.zipWith (· + ·) (List.zipWith (· * ·) action e.actionStd) e.actionMean
      ∧ (step integrate e action).2
        = -(4/100000) * sqNorm e.backend.genForce
          + velocityTerm ((step integrate e action).1.bodyLinearVel.getD 0 0) := by
  have hn : numSubSteps e = 0 := cppIntCast_toNat_eq_zero h
  have hb : (step integrate e action).1.backend
      = integrate^[numSubSteps e] e.backend := rfl
  have h0 : integrate^[numSubSteps e] e.backend = e.backend := by
    rw [hn]
    rfl
  refine ⟨hn, hb.trans h0, ?_, step_pTarget integrate e action, ?_⟩
  · have hob : (step integrate e action).1.obDouble
        = observationSpec e.nJoints (integrate^[numSubSteps e] e.backend).gc
            (integrate^[numSubSteps e] e.backend).gv := rfl
    rw [hob, h0]
  · have hr : (step integrate e action).2
        = -(4/100000) * sqNorm (integrate^[numSubSteps e] e.backend).genForce
          + velocityTerm ((step integrate e action).1.bodyLinearVel.getD 0 0) := rfl
    rw [hr, h0]

/-- The environment retimed to `control_dt = 0.001 < simulation_dt = 0.01`:
the sub-step ratio is `0.1`. -/
def env10 : WalkerEnv := setControlTimeStep (setSimulationTimeStep env0 (1/100)) (1/1000)

/-- Witness for C10 at ratio `0.1` with the identity integrator and a zero
action. -/
theorem step_zero_substeps_witness :
    (env10.control_dt / env10.simulation_dt + subStepEps < 1)
      ∧ (numSubSteps env10 = 0
        ∧ (step id env10 (List.replicate 12 0)).1.backend = env10.backend
        ∧ (step id env10 (List.replicate 12 0)).1.obDouble
          = observationSpec env10.nJoints env10.backend.gc env10.backend.gv
        ∧ (step id env10 (List.replicate 12 0)).1.pTarget
          = env10.pTarget.take (env10.pTarget.length - env10.nJoints)
            ++ List.zipWith (· + ·)
                (List.zipWith (· * ·) (List.replicate 12 0) env10.actionStd) env10.actionMean
        ∧ (step id env10 (List.replicate 12 0)).2
          = -(4/100000) * sqNorm env10.backend.genForce
            + velocityTerm ((step id env10 (List.replicate 12 0)).1.bodyLinearVel.getD 0 0)) :=
  ⟨by show (1/1000 : ℚ) / (1/100) + subStepEps < 1; norm_num [subStepEps],
   step_zero_substeps id env10 (List.replicate 12 0)
     (by show (1/1000 : ℚ) / (1/100) + subStepEps < 1; norm_num [subStepEps])⟩

/-- C9 (code bug): constructed without visualization, `server_` is null and
each visualization entry point dereferences it unconditionally — the model
evaluates to `none` (the crash), contradicting the required graceful
failure. -/
theorem visualization_calls_null_deref :
    env0.server = none
      ∧ turnOffVisualization env0 = none
      ∧ turnOnVisualization env0 = none
      ∧ startRecordingVideo env0 "video.mp4" = none
      ∧ stopRecordingVideo env0 = none :=
  ⟨rfl, rfl, rfl, rfl, rfl⟩

end Walker
